import Mathlib

/-!
Shallow embedding of the AI-Hackathon investment-analysis backend.

The repository has two parallel backend trees:
  * `src/backend/app`                      (namespace `Backend` below)
  * `src/investment-ai-agent/backend/app`  (namespace `IAgent` below)

Python dictionaries holding analysis results are modelled by the `Json`
inductive; Python strings by `String` (ASCII inputs; `str.lower` is modelled
by `String.toLower`, which agrees on ASCII).  External libraries (hashlib,
numpy, ChromaDB, the OpenAI client) are modelled as explicit oracle
parameters or as insertion-ordered stores, following the spec's description
of their interface behaviour.
-/

namespace AIHack

/-- A JSON-like value: the shape of the Python dicts that hold analysis
results.  Object fields keep insertion order, as Python dicts do. -/
inductive Json where
  | null : Json
  | str (s : String) : Json
  | num (n : Int) : Json
  | arr (elems : List Json) : Json
  | obj (fields : List (String × Json)) : Json

/-- First binding of a key in an association list (Python dict lookup;
keys in our objects are unique). -/
def lookupField : List (String × Json) → String → Option Json
  | [], _ => none
  | (k', v') :: rest, k => if k' = k then some v' else lookupField rest k

/-- Python `d.get(key)`: `none` when the value is not a dict or lacks the key. -/
def Json.getField : Json → String → Option Json
  | .obj fs, k => lookupField fs k
  | _, _ => none

/-- Python `d.get(key, default)` for string-valued fields; a missing dict or
missing key yields the default. -/
def Json.getStrD (j : Json) (k : String) (d : String) : String :=
  match j.getField k with
  | some (.str s) => s
  | _ => d

/-- Python `d[key] = v` on the field list: replaces the binding in place if
the key exists, otherwise appends it (dict insertion order). -/
def setField : List (String × Json) → String → Json → List (String × Json)
  | [], key, v => [(key, v)]
  | (k', v') :: rest, key, v =>
      if k' = key then (key, v) :: rest else (k', v') :: setField rest key v

/-- Python `d[key] = v` on a `Json` value (our uses always apply it to objects). -/
def dictSet : Json → String → Json → Json
  | .obj fs, key, v => .obj (setField fs key v)
  | j, _, _ => j

/-- Python truthiness of a JSON-like value: empty containers, the empty
string, zero and `None` are falsy. -/
def Json.truthy : Json → Bool
  | .null => false
  | .str s => !(s == "")
  | .num n => !(n == 0)
  | .arr elems => !elems.isEmpty
  | .obj fields => !fields.isEmpty

/-! ### String matching helpers (`re.search` with word boundaries, `in`) -/

/-- Python `str.lower()` over ASCII text: lower-case each character.  This
is `String.toLower` written over the character list (so that it evaluates
by kernel reduction). -/
def pyLower (s : String) : String := String.mk (s.data.map Char.toLower)

/-- A regex word character (`\w` over ASCII): letter, digit or underscore. -/
def wordChar (c : Char) : Bool := c.isAlphanum || c == '_'

/-- The characters of `kw` occur in `cs` at offset `i`, with a `\b` word
boundary on each side (our keywords begin and end with word characters). -/
def boundaryMatchAt (cs kw : List Char) (i : Nat) : Bool :=
  decide ((cs.drop i).take kw.length = kw)
  && (i == 0 || !wordChar (cs.getD (i - 1) ' '))
  && (decide (cs.length ≤ i + kw.length) || !wordChar (cs.getD (i + kw.length) ' '))

/-- Models `re.search(r"\b(kw1|kw2|...)\b", s) is not None`: some keyword of
the alternation occurs somewhere in `s` at word boundaries. -/
def reSearchWord (kws : List String) (s : String) : Bool :=
  kws.any fun kw =>
    (List.range (s.data.length + 1)).any fun i => boundaryMatchAt s.data kw.data i

/-- Python `sub in s`: plain substring containment, no word boundaries. -/
def strContainsB (sub s : String) : Bool :=
  (List.range (s.data.length + 1)).any fun i =>
    decide ((s.data.drop i).take sub.data.length = sub.data)

/-! ### Compliance screen (`src/investment-ai-agent/backend/app/services/sharia.py`) -/

/-- Status field of a compliance finding. -/
inductive ShStatus where
  | Pass : ShStatus
  | Review : ShStatus
  | Fail : ShStatus
deriving DecidableEq

/-- Result of `screen_sharia`: `{"status": ..., "reasons": [...]}`. -/
structure Finding where
  status : ShStatus
  reasons : List String
deriving DecidableEq

/-- `INTEREST_KEYWORDS` alternation from sharia.py. -/
def INTEREST_KEYWORDS : List String :=
  ["interest", "riba", "conventional bank", "loan interest", "usury", "usurious"]

/-- `ALCOHOL_KEYWORDS` alternation from sharia.py. -/
def ALCOHOL_KEYWORDS : List String := ["alcohol", "beer", "wine", "spirits", "liquor"]

/-- `GAMBLING_KEYWORDS` alternation from sharia.py. -/
def GAMBLING_KEYWORDS : List String :=
  ["gambling", "casino", "betting", "wager", "lottery", "bookmaker"]

/-- `PROHIBITED_PRODUCTS_KEYWORDS` alternation from sharia.py. -/
def PROHIBITED_PRODUCTS_KEYWORDS : List String := ["pork", "swine", "tobacco"]

/-- The lending-related terms looked for inside the business overview
(the tuple literal on sharia.py line 31). -/
def LENDING_TERMS : List String :=
  ["bank", "lending", "loan", "interest-bearing", "conventional finance"]

/-- Reason recorded by the Fail branch of rule 1. -/
def R_FAIL : String :=
  "Company's core business appears to be in conventional lending or interest-based finance."

/-- Reason recorded by the soft branch of rule 1. -/
def R_SOFT : String :=
  "Detected keywords related to interest/riba. Further review of revenue sources is required."

/-- Reason recorded by the alcohol rule. -/
def R_ALCOHOL : String := "Detected keywords related to alcohol production or sale."

/-- Reason recorded by the gambling rule. -/
def R_GAMBLING : String := "Detected keywords related to gambling or betting activities."

/-- Reason recorded by the prohibited-products rule. -/
def R_PROHIBITED : String := "Detected keywords related to pork or tobacco products."

/-- The canned no-issue reason returned with `Pass`. -/
def R_NONE : String := "No explicit non-compliant activities found in the text."

/-- `full_text = " ".join(texts).lower()` (sharia.py line 25). -/
def fullTextOf (texts : List String) : String :=
  pyLower (String.intercalate " " texts)

/-- Rule 1's precondition: `re.search(INTEREST_KEYWORDS, full_text)`. -/
def interestHit (texts : List String) : Bool :=
  reSearchWord INTEREST_KEYWORDS (fullTextOf texts)

/-- Rule 1's escalation test: some lending term is a substring of the
lowercased business overview (`any(k in overview for k in (...))`,
sharia.py line 31 — substring containment, not word-boundary matching). -/
def lendingHit (analysis : Json) : Bool :=
  LENDING_TERMS.any fun kw =>
    strContainsB kw (pyLower (analysis.getStrD "business_overview" ""))

/-- Rule 2's alcohol test. -/
def alcoholHit (texts : List String) : Bool :=
  reSearchWord ALCOHOL_KEYWORDS (fullTextOf texts)

/-- Rule 2's gambling test. -/
def gamblingHit (texts : List String) : Bool :=
  reSearchWord GAMBLING_KEYWORDS (fullTextOf texts)

/-- Rule 2's prohibited-products test. -/
def prohibitedHit (texts : List String) : Bool :=
  reSearchWord PROHIBITED_PRODUCTS_KEYWORDS (fullTextOf texts)

/-- Rules 2-4 of `screen_sharia` followed by the final status decision
(sharia.py lines 37-48), starting from the reasons rule 1 recorded. -/
def rulesTail (texts : List String) (reasons : List String) : Finding :=
  let reasons := reasons ++ (if alcoholHit texts then [R_ALCOHOL] else [])
  let reasons := reasons ++ (if gamblingHit texts then [R_GAMBLING] else [])
  let reasons := reasons ++ (if prohibitedHit texts then [R_PROHIBITED] else [])
  if reasons.isEmpty then ⟨.Pass, [R_NONE]⟩ else ⟨.Review, reasons⟩

/-- `screen_sharia(texts, analysis)` from sharia.py.  Rule 1's Fail branch
returns immediately (the Python `return` on line 33), so rules 2-4 are
never evaluated in that case. -/
def screen_sharia (texts : List String) (analysis : Json) : Finding :=
  if interestHit texts then
    if lendingHit analysis then ⟨.Fail, [R_FAIL]⟩
    else rulesTail texts [R_SOFT]
  else rulesTail texts []

/-! ### Chunk index / retrieval (`src/investment-ai-agent/backend/app/services/rag.py`) -/

/-- One stored chunk of a per-document ChromaDB collection: its document
text and its metadata dict `{"document_id": ..., "page": ...}`. -/
structure Entry where
  document : String
  metaDocId : String
  metaPage : Nat
deriving DecidableEq

/-- A per-document ChromaDB collection.  `entries` models the stored chunks
in insertion order; per the spec (§4.2) `collection.get(limit=k)` returns
the first `k` of them.  `nnQuery` models `collection.query`: the store's
nearest-neighbour search, an external ranking we treat as an oracle. -/
structure Collection where
  entries : List Entry
  nnQuery : List ℝ → Nat → List Entry

/-- One element of `get_top_k`'s result list, a Python dict with keys
`"document"` and `"metadata"` (the metadata dict flattened to its page).
The fields `text` and `page_number` model the *absent* dict keys that
`create_analysis` and the backend context builder look up with
`.get('text', '')` / `.get('page_number', 'N/A')`; `get_top_k` never sets
them, so they are `none` on every chunk it returns. -/
structure ChunkDict where
  document : Option String := none
  metaPage : Option Nat := none
  text : Option String := none
  page_number : Option Nat := none

/-- Reformatting done in rag.py lines 61-64: each stored chunk becomes
`{"document": doc, "metadata": meta}`. -/
def entryToChunk (e : Entry) : ChunkDict :=
  { document := some e.document, metaPage := some e.metaPage }

/-- `get_top_k(collection_name, query_text, k, embed_func)` from rag.py.
An empty `query_text` takes the `collection.get(limit=k)` branch: the first
`k` chunks in insertion order, with no call to `embed_func`.  A non-empty
query embeds the query text and delegates ranking to the store
(`embed_func([query_text])[0]` is modelled with a default for the
out-of-contract empty-embedding case). -/
def get_top_k (coll : Collection) (query_text : String) (k : Nat)
    (embed_func : List String → List (List ℝ)) : List ChunkDict :=
  if query_text = "" then
    (coll.entries.take k).map entryToChunk
  else
    (coll.nnQuery ((embed_func [query_text]).headD []) k).map entryToChunk

/-! ### Context assembly for generation (`llm.py`, both variants) -/

/-- Python string slicing `s[:n]`: the first `n` code points. -/
def strTake (s : String) (n : Nat) : String := String.mk (s.data.take n)

/-- Formats an optional page number the way the f-strings do: the number,
or `"N/A"` when the dict key is missing. -/
def pageStr : Option Nat → String
  | some n => toString n
  | none => "N/A"

/-- `MAX_CONTEXT_CHARS` from `src/backend/app/services/llm.py` line 107. -/
def MAX_CONTEXT_CHARS : Nat := 120000

namespace Backend

/-- The context string assembled by `strict_json_analyze` in
`src/backend/app/services/llm.py` lines 102-106: page-marked chunks joined
with blank lines, reading the dict keys `page_number` and `text`. -/
def contextOf (chunks : List AIHack.ChunkDict) : String :=
  String.intercalate "\n\n" (chunks.map fun chunk =>
    "--- START OF PAGE " ++ AIHack.pageStr chunk.page_number ++ " ---\n"
      ++ chunk.text.getD "")

/-- Lines 106-109 of `src/backend/app/services/llm.py`: the assembled
context, truncated to `MAX_CONTEXT_CHARS` characters when longer. -/
def truncatedContext (chunks : List AIHack.ChunkDict) : String :=
  let context := contextOf chunks
  if context.length > AIHack.MAX_CONTEXT_CHARS then
    AIHack.strTake context AIHack.MAX_CONTEXT_CHARS
  else context

end Backend

namespace IAgent

/-- The context string assembled by `strict_json_analyze` in
`src/investment-ai-agent/backend/app/services/llm.py` line 64: page-marked
chunks joined with blank lines, reading `chunk['metadata']['page']` and
`chunk['document']`.  No truncation is applied.  (`chunk['document']` would
raise `KeyError` on a chunk without the key; every caller supplies it, and
we model the access with a default.) -/
def contextOf (chunks : List AIHack.ChunkDict) : String :=
  String.intercalate "\n\n" (chunks.map fun chunk =>
    "--- PAGE " ++ AIHack.pageStr chunk.metaPage ++ " ---\n" ++ chunk.document.getD "")

end IAgent

/-! ### Generation client (`strict_json_analyze`, both variants)

The OpenAI chat call is an external service; each call either raises a
transport/service error, or returns a raw response string that either parses
as JSON or fails to parse.  We model the sequence of call outcomes as an
oracle `Nat → LLMOutcome` (outcome of the i-th call) and the conversation as
an explicit message list, so the retry protocol becomes pure. -/

/-- One chat message `{"role": ..., "content": ...}`. -/
structure Message where
  role : String
  content : String
deriving DecidableEq

/-- Outcome of one `client.chat.completions.create(...)` call followed by
`json.loads`: a parsed value (with its raw text), a raw response that fails
to parse, or a transport/service error raised by the call itself. -/
inductive LLMOutcome where
  | ok (parsed : Json) (raw : String) : LLMOutcome
  | parseFail (raw : String) : LLMOutcome
  | transportFail (err : String) : LLMOutcome

/-- The typed hard failures `strict_json_analyze` can raise:
`invalidOutput` models the `ValueError` raised after a second parse
failure, `generationFailed` the `RuntimeError` (carrying the underlying
cause) raised after a second transport failure. -/
inductive GenErr where
  | invalidOutput (msg : String) : GenErr
  | generationFailed (cause : String) : GenErr
deriving DecidableEq

/-- Observable trace of one `strict_json_analyze` run: its result, how many
LLM calls were made, and the conversation as it stood at the last call. -/
structure GenTrace where
  result : Except GenErr Json
  attempts : Nat
  finalMessages : List Message

/-- The `ValueError` message raised by both variants after two failed parses. -/
def INVALID_JSON_MSG : String := "Failed to get valid JSON from LLM after 2 attempts."

namespace Backend

/-- The corrective user message appended before the retry
(`src/backend/app/services/llm.py` line 131/136). -/
def retryMsg : Message := ⟨"user", "Respond with VALID JSON only. No extra text."⟩

/-- The initial conversation built on llm.py lines 111-114. -/
def initMessages (chunks : List AIHack.ChunkDict) (prompt : String) : List AIHack.Message :=
  [⟨"system", prompt⟩,
   ⟨"user", "Here is the document context:\n" ++ truncatedContext chunks⟩]

/-- `strict_json_analyze(chunks, prompt)` outside demo mode
(`src/backend/app/services/llm.py` lines 101-138), with the LLM calls
supplied by `oracle`.  The `for attempt in range(2)` loop is unrolled:
attempt 0, then — after appending the recovery messages — attempt 1.
On a first parse failure the prior raw response (`last_raw or
"Invalid format."`) is appended as an assistant message together with the
corrective instruction; on a first transport failure only the corrective
instruction is appended.  A second parse failure raises the `ValueError`
(invalid output); a second transport failure raises the `RuntimeError`
carrying the cause. -/
def strict_json_analyze (chunks : List AIHack.ChunkDict) (prompt : String)
    (oracle : Nat → AIHack.LLMOutcome) : AIHack.GenTrace :=
  let messages := initMessages chunks prompt
  match oracle 0 with
  | .ok j _ => ⟨.ok j, 1, messages⟩
  | .parseFail raw =>
      let messages := messages ++
        [⟨"assistant", if raw = "" then "Invalid format." else raw⟩, retryMsg]
      match oracle 1 with
      | .ok j _ => ⟨.ok j, 2, messages⟩
      | .parseFail _ => ⟨.error (.invalidOutput AIHack.INVALID_JSON_MSG), 2, messages⟩
      | .transportFail e => ⟨.error (.generationFailed e), 2, messages⟩
  | .transportFail _ =>
      let messages := messages ++ [retryMsg]
      match oracle 1 with
      | .ok j _ => ⟨.ok j, 2, messages⟩
      | .parseFail _ => ⟨.error (.invalidOutput AIHack.INVALID_JSON_MSG), 2, messages⟩
      | .transportFail e => ⟨.error (.generationFailed e), 2, messages⟩

end Backend

namespace IAgent

/-- The corrective user message appended before the retry
(`src/investment-ai-agent/backend/app/services/llm.py` line 72). -/
def retryMsg : Message :=
  ⟨"user", "Your response was not valid JSON. Respond with VALID JSON only."⟩

/-- The initial conversation built on llm.py line 65 (no truncation of the
context). -/
def initMessages (chunks : List AIHack.ChunkDict) (prompt : String) : List AIHack.Message :=
  [⟨"system", prompt⟩,
   ⟨"user", "Here is the document context:\n" ++ contextOf chunks⟩]

/-- `strict_json_analyze(chunks, prompt)` outside demo mode
(`src/investment-ai-agent/backend/app/services/llm.py` lines 64-75).
`except (json.JSONDecodeError, OpenAIError)` treats a parse failure and a
service failure alike: on the first, only the corrective instruction is
appended (no assistant message with the malformed response); on the second,
the same `ValueError` is raised for either kind. -/
def strict_json_analyze (chunks : List AIHack.ChunkDict) (prompt : String)
    (oracle : Nat → AIHack.LLMOutcome) : AIHack.GenTrace :=
  let messages := initMessages chunks prompt
  match oracle 0 with
  | .ok j _ => ⟨.ok j, 1, messages⟩
  | _ =>
      let messages := messages ++ [retryMsg]
      match oracle 1 with
      | .ok j _ => ⟨.ok j, 2, messages⟩
      | _ => ⟨.error (.invalidOutput AIHack.INVALID_JSON_MSG), 2, messages⟩

end IAgent

/-! ### Deterministic (offline) embedders

`hashlib.sha256` and `numpy.random.RandomState(seed).rand(dim)` are external
libraries; we model them as oracle functions `shaSeed : String → ℕ` (the
first four digest bytes as a big-endian seed) and `npRand : ℕ → ℕ → List ℝ`
(the `dim` pseudo-random draws in `[0,1)` for a given seed).  Both are
deterministic functions, which is exactly what the embedding pipeline relies
on.  Float arithmetic is idealised over `ℝ`. -/

namespace Backend

/-- `_hash_embed(text, dim=384)` from `src/backend/app/services/llm.py`
lines 53-60: seed from the text's hash, draw `dim` values, shift by 0.5,
and divide by the Euclidean norm unless it is zero. -/
noncomputable def hash_embed (shaSeed : String → ℕ) (npRand : ℕ → ℕ → List ℝ)
    (text : String) (dim : ℕ := 384) : List ℝ :=
  let vec := (npRand (shaSeed text) dim).map (fun x => x - 0.5)
  let norm := Real.sqrt ((vec.map (fun x => x * x)).sum)
  if norm > 0 then vec.map (fun x => x / norm) else vec

/-- The demo-mode embedder returned by `get_embedder()` (llm.py line 69):
`_hash_embed` mapped over the batch, at the default dimension 384. -/
noncomputable def demo_embedder (shaSeed : String → ℕ) (npRand : ℕ → ℕ → List ℝ)
    (texts : List String) : List (List ℝ) :=
  texts.map fun text => hash_embed shaSeed npRand text

end Backend

namespace IAgent

/-- `_hash_embedder(texts, dim=768)` from
`src/investment-ai-agent/backend/app/services/llm.py` lines 38-47: the same
per-text pipeline as the backend variant, at dimension 768, applied to the
whole batch. -/
noncomputable def hash_embedder (shaSeed : String → ℕ) (npRand : ℕ → ℕ → List ℝ)
    (texts : List String) (dim : ℕ := 768) : List (List ℝ) :=
  texts.map fun text =>
    let vec := (npRand (shaSeed text) dim).map (fun x => x - 0.5)
    let norm := Real.sqrt ((vec.map (fun x => x * x)).sum)
    if norm > 0 then vec.map (fun x => x / norm) else vec

end IAgent

/-! ### Demo-mode canned analyses and the demo branch of `strict_json_analyze` -/

namespace Backend

/-- `CANNED_ANALYSIS_RESPONSE` from `src/backend/app/services/llm.py`
lines 24-49, transcribed field for field. -/
def CANNED_ANALYSIS_RESPONSE : Json := .obj [
  ("company_name", .str "Innovate Inc."),
  ("sector", .str "Enterprise SaaS"),
  ("financial_metrics", .obj [
    ("revenue", .obj [("value", .num 50), ("unit", .str "USD millions"),
      ("year", .num 2024), ("page", .num 12)]),
    ("revenue_growth", .obj [("value", .num 35), ("unit", .str "%"), ("page", .num 12)]),
    ("gross_margin", .obj [("value", .num 85), ("unit", .str "%"), ("page", .num 13)]),
    ("operating_margin", .obj [("value", .num 15), ("unit", .str "%"), ("page", .num 13)]),
    ("net_margin", .obj [("value", .num 10), ("unit", .str "%"), ("page", .num 13)]),
    ("arr", .obj [("value", .num 48), ("unit", .str "USD millions"), ("page", .num 14)]),
    ("customer_count", .obj [("value", .num 500), ("page", .num 15)])]),
  ("key_metrics", .arr [
    .obj [("metric", .str "Net Revenue Retention"), ("value", .str "120%"),
      ("importance", .str "High"), ("page", .num 15)],
    .obj [("metric", .str "Customer Acquisition Cost"), ("value", .str "12 months payback"),
      ("importance", .str "Medium"), ("page", .num 16)]]),
  ("red_flags", .arr [
    .obj [("flag", .str "High dependency on a single large customer."),
      ("severity", .str "Medium"), ("category", .str "Market"), ("page", .num 20)]]),
  ("business_overview", .str "Innovate Inc. provides a leading AI-powered workflow automation platform for large enterprises. Its main product optimizes supply chain logistics, reducing operational costs for clients."),
  ("competitive_position", .str "The company is a strong contender in the automation space, competing with larger players but differentiating through its vertical-specific AI models and strong customer support."),
  ("citations", .arr [
    .obj [("page", .num 12), ("quote", .str "Annual revenue reached $50 million in FY2024, a 35% increase year-over-year.")],
    .obj [("page", .num 20), ("quote", .str "Approximately 40% of our revenue is derived from our largest client, Acme Corp.")]])]

/-- The `DEMO_MODE` branch of `strict_json_analyze`
(`src/backend/app/services/llm.py` lines 94-99): the canned response for
`"doc123"`, otherwise a shallow copy with only `company_name` replaced. -/
def strict_json_analyze_demo (doc_id_for_demo : Option String) : Json :=
  if doc_id_for_demo = some "doc123" then CANNED_ANALYSIS_RESPONSE
  else dictSet CANNED_ANALYSIS_RESPONSE "company_name" (.str "Generic Demo Corp")

end Backend

namespace IAgent

/-- `CANNED_ANALYSIS_RESPONSE` from
`src/investment-ai-agent/backend/app/services/llm.py` lines 24-33,
transcribed field for field. -/
def CANNED_ANALYSIS_RESPONSE : Json := .obj [
  ("company_name", .str "Innovate Inc. (DEMO)"),
  ("sector", .str "Enterprise SaaS"),
  ("financial_metrics", .obj [
    ("revenue", .obj [("value", .num 50), ("unit", .str "USD millions"),
      ("year", .num 2024), ("page", .num 12)])]),
  ("key_metrics", .arr [
    .obj [("metric", .str "Net Revenue Retention"), ("value", .str "120%"),
      ("importance", .str "High"), ("page", .num 15)]]),
  ("red_flags", .arr [
    .obj [("flag", .str "High dependency on a single large customer."),
      ("severity", .str "Medium"), ("category", .str "Market"), ("page", .num 20)]]),
  ("business_overview", .str "Innovate Inc. is a leading provider of AI-powered workflow automation platforms."),
  ("competitive_position", .str "The company holds a strong position against its main competitor."),
  ("citations", .arr [
    .obj [("page", .num 12), ("quote", .str "Revenue for Fiscal Year 2024 reached $50 million...")]])]

/-- The `DEMO_MODE` branch of `strict_json_analyze`
(`src/investment-ai-agent/backend/app/services/llm.py` lines 62-63): the
canned response for `"doc123"`, otherwise the empty dict `{}`. -/
def strict_json_analyze_demo (doc_id_for_demo : Option String) : Json :=
  if doc_id_for_demo = some "doc123" then CANNED_ANALYSIS_RESPONSE else .obj []

end IAgent

/-- The required top-level fields of an Analysis Result (spec §3). -/
def requiredFields : List String :=
  ["company_name", "sector", "financial_metrics", "key_metrics",
   "red_flags", "business_overview", "competitive_position", "citations"]

/-! ### Analysis orchestrator and cache (`src/backend/app/routers/analyze.py`) -/

/-- An HTTP-level error surfaced by a router: status code and detail.
Details raised inside the orchestration `try` block are re-wrapped as 500
internal errors by the blanket `except Exception` handler; the exact detail
strings do not matter to the claims, only the failure itself. -/
structure HttpErr where
  code : Nat
  detail : String
deriving DecidableEq

/-- `ANALYSIS_CACHE`: an in-memory dict keyed by document id, modelled as an
insertion-ordered association list. -/
abbrev Cache := List (String × Json)

/-- Dict lookup on the cache (`ANALYSIS_CACHE.get(document_id)`). -/
def cacheLookup : Cache → String → Option Json
  | [], _ => none
  | (k, v) :: rest, d => if k = d then some v else cacheLookup rest d

/-- `ANALYSIS_CACHE[document_id] = result`: replace the entry if present,
otherwise append it. -/
def cacheSet : Cache → String → Json → Cache
  | [], d, r => [(d, r)]
  | (k, v) :: rest, d, r =>
      if k = d then (d, r) :: rest else (k, v) :: cacheSet rest d r

/-- The status string of a finding, as stored in its `"status"` field. -/
def ShStatus.toStr : ShStatus → String
  | .Pass => "Pass"
  | .Review => "Review"
  | .Fail => "Fail"

/-- A finding as the JSON dict `screen_sharia` returns. -/
def findingJson (f : Finding) : Json :=
  .obj [("status", .str f.status.toStr), ("reasons", .arr (f.reasons.map .str))]

/-- `severity_map.get(status, "Low")` from analyze.py lines 97-98. -/
def severityFor : ShStatus → String
  | .Fail => "High"
  | .Review => "Medium"
  | .Pass => "Low"

/-- One appended Sharia red flag (analyze.py lines 101-106). -/
def shariaFlagJson (severity reason : String) : Json :=
  .obj [("flag", .str reason), ("severity", .str severity),
        ("category", .str "Sharia"), ("page", .null)]

/-- Analyze.py lines 96-106: when the finding's status is not `"Pass"`,
append one red flag per reason — skipping any reason containing the canned
no-issue sentence — into the result's `red_flags` list.  Accessing
`analysis_result["red_flags"]` raises (`KeyError`/`AttributeError`) when
the key is missing or not a list; that only happens if at least one flag is
actually appended, and surfaces as the router's 500 error. -/
def appendShariaFlags (result : Json) (findings : Finding) : Except Unit Json :=
  if findings.status = .Pass then .ok result
  else
    let flags := (findings.reasons.filter
        fun r => !(strContainsB "No explicit non-compliant" r)).map
      (shariaFlagJson (severityFor findings.status))
    if flags.isEmpty then .ok result
    else
      match result.getField "red_flags" with
      | some (.arr xs) => .ok (dictSet result "red_flags" (.arr (xs ++ flags)))
      | _ => .error ()

/-- `create_analysis(document_id, request)` from analyze.py lines 61-115.
`registry` models `upload.DOC_REGISTRY`'s key set; `store` maps a document
id to its ChromaDB collection; `llmCall` is the `strict_json_analyze`
invocation, whose network-dependent outcome is an oracle.  Returns the
endpoint's result together with the cache as left by the call.  Failures
raised inside the `try` block (no chunks, generation failure, red-flag
append error) surface as 500 errors; the cache is only written on line 109,
after every fallible step. -/
def create_analysis (registry : List String) (store : String → Collection) (k : Nat)
    (embed_func : List String → List (List ℝ))
    (llmCall : List ChunkDict → Except GenErr Json)
    (cache : Cache) (document_id : String) :
    Except HttpErr Json × Cache :=
  if registry.contains document_id then
    let top_chunks := get_top_k (store document_id) "" k embed_func
    if top_chunks.isEmpty then
      (.error ⟨500, "An internal error occurred during analysis: 400: Could not retrieve text chunks from the document."⟩, cache)
    else
      match llmCall top_chunks with
      | .error _ =>
          (.error ⟨500, "An internal error occurred during analysis."⟩, cache)
      | .ok analysis_result =>
          let chunk_texts := top_chunks.map fun chunk => chunk.text.getD ""
          let sharia_findings := screen_sharia chunk_texts analysis_result
          let analysis_result :=
            dictSet analysis_result "sharia_findings" (findingJson sharia_findings)
          match appendShariaFlags analysis_result sharia_findings with
          | .error _ =>
              (.error ⟨500, "An internal error occurred during analysis."⟩, cache)
          | .ok result => (.ok result, cacheSet cache document_id result)
  else
    (.error ⟨404, "Document not found."⟩, cache)

/-- Python truthiness of an optional lookup result (`if not result`). -/
def truthyOpt : Option Json → Bool
  | none => false
  | some v => v.truthy

/-- `get_analysis(document_id)` from analyze.py lines 118-129: a cache
lookup tested for truthiness (`if not result`), not for key presence. -/
def get_analysis (cache : Cache) (document_id : String) : Except HttpErr Json :=
  let result := cacheLookup cache document_id
  if truthyOpt result then .ok (result.getD .null)
  else .error ⟨404, "Analysis not found. Please run the analysis first via a POST request."⟩

/-- The cache-lookup gate of `generate_memo`
(`src/investment-ai-agent/backend/app/routers/memo.py` lines 84-90): the
analysis the memo would be templated from, or the 400 error when the slot
is absent or falsy.  The templating and translation calls that follow are
out of scope (spec §6); we model the function up to this gate. -/
def generate_memo_gate (cache : Cache) (document_id : String) : Except HttpErr Json :=
  let analysis := cacheLookup cache document_id
  if truthyOpt analysis then .ok (analysis.getD .null)
  else .error ⟨400, "Analysis for this document_id not found. Please run analysis first."⟩

/-! ### Concrete fixtures used by witnesses and counterexamples -/

/-- A minimal well-formed generation result: benign overview, empty red-flag
list. -/
def A0 : Json := .obj [("business_overview", .str "We sell software."), ("red_flags", .arr [])]

/-- A one-document store whose single chunk's text mentions gambling. -/
def store0 : String → Collection :=
  fun _ => ⟨[⟨"Our casino gambling business", "doc1", 1⟩], fun _ _ => []⟩

/-- A chunk text of 120001 characters, one over the truncation budget. -/
def bigText : String := String.mk (List.replicate 120001 'a')

/-!
## Theorems

Helper lemmas come first; each claim's theorem (and, where applicable, its
witness and counterexample) follows, named `C<n>_...`.
-/

/-- Full case analysis of `screen_sharia`: how the status and the recorded
reasons are determined by the five keyword tests. -/
theorem screen_sharia_props (texts : List String) (analysis : Json) :
    ((screen_sharia texts analysis).status = .Fail
        ↔ interestHit texts = true ∧ lendingHit analysis = true)
  ∧ ((screen_sharia texts analysis).status = .Fail
        → screen_sharia texts analysis = ⟨.Fail, [R_FAIL]⟩)
  ∧ ((screen_sharia texts analysis).status = .Pass
        ↔ interestHit texts = false ∧ alcoholHit texts = false
          ∧ gamblingHit texts = false ∧ prohibitedHit texts = false)
  ∧ ((screen_sharia texts analysis).status = .Pass
        → (screen_sharia texts analysis).reasons = [R_NONE])
  ∧ ((screen_sharia texts analysis).status = .Review
        ↔ ((interestHit texts = true ∨ alcoholHit texts = true
             ∨ gamblingHit texts = true ∨ prohibitedHit texts = true)
           ∧ ¬(interestHit texts = true ∧ lendingHit analysis = true)))
  ∧ ((screen_sharia texts analysis).status = .Review
        → (screen_sharia texts analysis).reasons
            = (if interestHit texts then [R_SOFT] else [])
              ++ (if alcoholHit texts then [R_ALCOHOL] else [])
              ++ (if gamblingHit texts then [R_GAMBLING] else [])
              ++ (if prohibitedHit texts then [R_PROHIBITED] else [])) := by
  by_cases hI : interestHit texts = true <;>
  by_cases hL : lendingHit analysis = true <;>
  by_cases hA : alcoholHit texts = true <;>
  by_cases hG : gamblingHit texts = true <;>
  by_cases hP : prohibitedHit texts = true <;>
  simp [screen_sharia, rulesTail, hI, hL, hA, hG, hP]

/-- C1: `screen_sharia` returns `Fail` iff an interest keyword matches the
concatenated texts and the business overview contains a lending term, in
which case it short-circuits with exactly the one core-lending reason;
`Pass` with exactly the canned no-issue reason iff no rule recorded any
reason; `Review` with the recorded reasons in every other case.  Texts with
"loan interest" plus a "bank" overview give `Fail` with one reason; texts
with only "casino" give `Review` with one reason; keyword-free texts give
`Pass` with the canned reason. -/
theorem C1_screen_sharia_status (texts : List String) (analysis : Json) :
    (((screen_sharia texts analysis).status = .Fail
        ↔ interestHit texts = true ∧ lendingHit analysis = true)
      ∧ ((screen_sharia texts analysis).status = .Fail
          → screen_sharia texts analysis = ⟨.Fail, [R_FAIL]⟩)
      ∧ (((screen_sharia texts analysis).status = .Pass
            ∧ (screen_sharia texts analysis).reasons = [R_NONE])
          ↔ interestHit texts = false ∧ alcoholHit texts = false
            ∧ gamblingHit texts = false ∧ prohibitedHit texts = false)
      ∧ ((screen_sharia texts analysis).status = .Review
          ↔ ((interestHit texts = true ∨ alcoholHit texts = true
               ∨ gamblingHit texts = true ∨ prohibitedHit texts = true)
             ∧ ¬(interestHit texts = true ∧ lendingHit analysis = true)))
      ∧ ((screen_sharia texts analysis).status = .Review
          → (screen_sharia texts analysis).reasons
              = (if interestHit texts then [R_SOFT] else [])
                ++ (if alcoholHit texts then [R_ALCOHOL] else [])
                ++ (if gamblingHit texts then [R_GAMBLING] else [])
                ++ (if prohibitedHit texts then [R_PROHIBITED] else [])))
    ∧ screen_sharia ["loan interest"]
        (.obj [("business_overview", .str "A bank for loans.")]) = ⟨.Fail, [R_FAIL]⟩
    ∧ screen_sharia ["casino"] (.obj []) = ⟨.Review, [R_GAMBLING]⟩
    ∧ screen_sharia ["We provide software services."] (.obj []) = ⟨.Pass, [R_NONE]⟩ := by
  obtain ⟨h1, h2, h3, h4, h5, h6⟩ := screen_sharia_props texts analysis
  refine ⟨⟨h1, h2, ?_, h5, h6⟩, by decide, by decide, by decide⟩
  constructor
  · rintro ⟨hs, -⟩
    exact h3.mp hs
  · intro h
    exact ⟨h3.mpr h, h4 (h3.mpr h)⟩

/-- C6 (counterexample): an overview containing the lending keyword "loan"
only inside the larger word "loaner" nonetheless triggers the Fail rule —
a reason is recorded, so the claim that every keyword test of the screen
matches only at word boundaries is false. -/
theorem C6_substring_counterexample :
    screen_sharia ["interest"] (.obj [("business_overview", .str "loaner")])
      = ⟨.Fail, [R_FAIL]⟩ := by decide

/-- C6 (amended): the four keyword tests over the concatenated texts match
only at word boundaries (keywords hidden inside larger words fire no rule),
but the lending-keyword inspection of the business overview uses plain
substring containment, so an overview containing a lending keyword inside a
larger word still escalates rule 1 to `Fail`. -/
theorem C6_boundary_texts_substring_overview :
    screen_sharia ["pinterest beerish gamblingly porky"] (.obj []) = ⟨.Pass, [R_NONE]⟩
  ∧ reSearchWord ["loan"] "loaner" = false
  ∧ lendingHit (.obj [("business_overview", .str "loaner")]) = true
  ∧ (∀ texts analysis, interestHit texts = true → lendingHit analysis = true
      → screen_sharia texts analysis = ⟨.Fail, [R_FAIL]⟩) := by
  refine ⟨by decide, by decide, by decide, ?_⟩
  intro texts analysis hI hL
  simp [screen_sharia, hI, hL]

/-- C6 witness: the amended theorem applied at the concrete counterexample
input, its hypotheses discharged by evaluation. -/
theorem C6_boundary_witness :
    interestHit ["interest"] = true
  ∧ lendingHit (.obj [("business_overview", .str "loaner")]) = true
  ∧ screen_sharia ["interest"] (.obj [("business_overview", .str "loaner")])
      = ⟨.Fail, [R_FAIL]⟩ :=
  ⟨by decide, by decide,
    C6_boundary_texts_substring_overview.2.2.2 ["interest"]
      (.obj [("business_overview", .str "loaner")]) (by decide) (by decide)⟩

/-- Length of a concatenation of strings. -/
theorem strLength_append (a b : String) : (a ++ b).length = a.length + b.length := by
  cases a with
  | mk l =>
    cases b with
    | mk m =>
      show (l ++ m).length = l.length + m.length
      exact List.length_append l m

/-- Length of a Python-style slice `s[:n]`. -/
theorem strTake_length (s : String) (n : Nat) : (strTake s n).length = min n s.length := by
  show (s.data.take n).length = min n s.data.length
  exact List.length_take n s.data

/-- Slicing a string at its own length returns it unchanged. -/
theorem strTake_all (s : String) : strTake s s.length = s := by
  cases s with
  | mk l =>
    show String.mk (l.take l.length) = String.mk l
    rw [List.take_length]

/-- C5: with an empty query text, `get_top_k` returns the first `k` chunks
of the collection in insertion order (so at most `k`, and fewer when the
collection is smaller), and the result does not depend on the supplied
embedding function — no embedding is computed. -/
theorem C5_get_top_k_empty_query (coll : Collection) (k : Nat)
    (f g : List String → List (List ℝ)) (_hk : 1 ≤ k) :
    get_top_k coll "" k f = (coll.entries.take k).map entryToChunk
  ∧ (get_top_k coll "" k f).length = min k coll.entries.length
  ∧ (get_top_k coll "" k f).length ≤ k
  ∧ get_top_k coll "" k f = get_top_k coll "" k g := by
  refine ⟨by simp [get_top_k], by simp [get_top_k], by simp [get_top_k], by simp [get_top_k]⟩

/-- C5 witness: the theorem applied to a one-chunk collection with `k = 1`
and two different embedding functions. -/
theorem C5_get_top_k_witness :
    1 ≤ 1
  ∧ get_top_k ⟨[⟨"a chunk", "d", 1⟩], fun _ _ => []⟩ "" 1 (fun _ => [])
      = get_top_k ⟨[⟨"a chunk", "d", 1⟩], fun _ _ => []⟩ "" 1 (fun _ => [[0]]) :=
  ⟨le_refl 1,
    (C5_get_top_k_empty_query ⟨[⟨"a chunk", "d", 1⟩], fun _ _ => []⟩ 1
      (fun _ => []) (fun _ => [[0]]) (le_refl 1)).2.2.2⟩

/-- C7 (counterexample): the investment-ai-agent variant of
`strict_json_analyze` performs no truncation — a single retrieved chunk of
120001 characters yields an assembled context longer than the 120000
character budget, refuting the claim that every non-demo generation
invocation truncates the context to at most 120000 characters. -/
theorem C7_ia_no_truncation_counterexample :
    MAX_CONTEXT_CHARS
      < (IAgent.contextOf [{ document := some bigText, metaPage := some 1 }]).length := by
  have h1 : IAgent.contextOf [{ document := some bigText, metaPage := some 1 }]
      = "--- PAGE " ++ pageStr (some 1) ++ " ---\n" ++ bigText := rfl
  have h2 : bigText.length = 120001 := by
    show (List.replicate 120001 'a').length = 120001
    exact List.length_replicate 120001 'a'
  rw [h1, strLength_append, strLength_append, strLength_append, h2]
  decide

/-- C7 (amended): the `src/backend` variant truncates the assembled context
to at most 120000 characters, keeping a prefix (the slice `context[:n]`)
and leaving a short context unchanged — a deterministic, total operation;
the investment-ai-agent variant assembles the context with no truncation at
all (see the counterexample). -/
theorem C7_backend_truncation (chunks : List ChunkDict) :
    Backend.truncatedContext chunks
      = strTake (Backend.contextOf chunks)
          (min MAX_CONTEXT_CHARS (Backend.contextOf chunks).length)
  ∧ (Backend.truncatedContext chunks).length ≤ MAX_CONTEXT_CHARS
  ∧ ((Backend.contextOf chunks).length ≤ MAX_CONTEXT_CHARS
      → Backend.truncatedContext chunks = Backend.contextOf chunks) := by
  unfold Backend.truncatedContext
  by_cases h : (Backend.contextOf chunks).length > MAX_CONTEXT_CHARS
  · refine ⟨?_, ?_, ?_⟩
    · simp only [h, if_true]
      rw [min_eq_left (le_of_lt h)]
    · simp only [h, if_true]
      rw [strTake_length]
      omega
    · intro hle
      omega
  · refine ⟨?_, ?_, ?_⟩
    · simp only [h, if_false]
      rw [min_eq_right (by omega), strTake_all]
    · simp only [h, if_false]
      omega
    · intro _
      simp [h]

/-- C7 witness: the backend truncation theorem applied to a concrete short
chunk list, the short-context hypothesis discharged by evaluation. -/
theorem C7_backend_truncation_witness :
    (Backend.contextOf [{ text := some "hello", page_number := some 1 }]).length
        ≤ MAX_CONTEXT_CHARS
  ∧ Backend.truncatedContext [{ text := some "hello", page_number := some 1 }]
      = Backend.contextOf [{ text := some "hello", page_number := some 1 }] :=
  ⟨by decide,
    (C7_backend_truncation [{ text := some "hello", page_number := some 1 }]).2.2
      (by decide)⟩

/-- C3 (counterexample): in the investment-ai-agent variant, two transport
failures raise the same `ValueError` as two parse failures — there is no
distinct generation-failed kind carrying the cause — and after a first
parse failure the conversation gains only the corrective instruction: the
prior malformed response ("garbage") is never appended. -/
theorem C3_ia_counterexample :
    (IAgent.strict_json_analyze [] "p" (fun _ => .transportFail "connection error")).result
      = .error (.invalidOutput INVALID_JSON_MSG)
  ∧ (IAgent.strict_json_analyze [] "p"
        (fun n => if n = 0 then .parseFail "garbage" else .ok (.obj []) "ok")).finalMessages
      = IAgent.initMessages [] "p" ++ [IAgent.retryMsg] := by
  constructor <;> rfl

/-- C3 (amended): both variants make at most 2 attempts and retry exactly
once.  In the `src/backend` variant the claim holds as stated: a first
parse failure appends the prior malformed response and the corrective
instruction and retries; a second parse failure raises the invalid-output
failure; a first transport failure retries with the corrective instruction
and a second raises the distinct generation-failed kind carrying the cause;
a success on either attempt returns that attempt's parsed record, never a
partial or default result.  The investment-ai-agent variant treats both
failure kinds alike: it appends only the corrective instruction (not the
prior malformed response) and raises the same invalid-output failure after
a second failure of either kind. -/
theorem C3_retry_protocol (chunks : List ChunkDict) (prompt : String)
    (oracle : Nat → LLMOutcome) :
    (1 ≤ (Backend.strict_json_analyze chunks prompt oracle).attempts
      ∧ (Backend.strict_json_analyze chunks prompt oracle).attempts ≤ 2)
  ∧ (∀ j raw, oracle 0 = .ok j raw →
      Backend.strict_json_analyze chunks prompt oracle
        = ⟨.ok j, 1, Backend.initMessages chunks prompt⟩)
  ∧ (∀ raw, oracle 0 = .parseFail raw →
      (Backend.strict_json_analyze chunks prompt oracle).attempts = 2
      ∧ (Backend.strict_json_analyze chunks prompt oracle).finalMessages
          = Backend.initMessages chunks prompt
            ++ [⟨"assistant", if raw = "" then "Invalid format." else raw⟩, Backend.retryMsg]
      ∧ (∀ j raw2, oracle 1 = .ok j raw2 →
          (Backend.strict_json_analyze chunks prompt oracle).result = .ok j)
      ∧ (∀ raw2, oracle 1 = .parseFail raw2 →
          (Backend.strict_json_analyze chunks prompt oracle).result
            = .error (.invalidOutput INVALID_JSON_MSG))
      ∧ (∀ e, oracle 1 = .transportFail e →
          (Backend.strict_json_analyze chunks prompt oracle).result
            = .error (.generationFailed e)))
  ∧ (∀ e0, oracle 0 = .transportFail e0 →
      (Backend.strict_json_analyze chunks prompt oracle).attempts = 2
      ∧ (Backend.strict_json_analyze chunks prompt oracle).finalMessages
          = Backend.initMessages chunks prompt ++ [Backend.retryMsg]
      ∧ (∀ j raw2, oracle 1 = .ok j raw2 →
          (Backend.strict_json_analyze chunks prompt oracle).result = .ok j)
      ∧ (∀ raw2, oracle 1 = .parseFail raw2 →
          (Backend.strict_json_analyze chunks prompt oracle).result
            = .error (.invalidOutput INVALID_JSON_MSG))
      ∧ (∀ e, oracle 1 = .transportFail e →
          (Backend.strict_json_analyze chunks prompt oracle).result
            = .error (.generationFailed e)))
  ∧ (1 ≤ (IAgent.strict_json_analyze chunks prompt oracle).attempts
      ∧ (IAgent.strict_json_analyze chunks prompt oracle).attempts ≤ 2)
  ∧ (∀ j raw, oracle 0 = .ok j raw →
      IAgent.strict_json_analyze chunks prompt oracle
        = ⟨.ok j, 1, IAgent.initMessages chunks prompt⟩)
  ∧ (∀ raw, oracle 0 = .parseFail raw →
      (IAgent.strict_json_analyze chunks prompt oracle).finalMessages
          = IAgent.initMessages chunks prompt ++ [IAgent.retryMsg]
      ∧ (∀ j raw2, oracle 1 = .ok j raw2 →
          (IAgent.strict_json_analyze chunks prompt oracle).result = .ok j)
      ∧ (∀ raw2, oracle 1 = .parseFail raw2 →
          (IAgent.strict_json_analyze chunks prompt oracle).result
            = .error (.invalidOutput INVALID_JSON_MSG))
      ∧ (∀ e, oracle 1 = .transportFail e →
          (IAgent.strict_json_analyze chunks prompt oracle).result
            = .error (.invalidOutput INVALID_JSON_MSG)))
  ∧ (∀ e0, oracle 0 = .transportFail e0 →
      (IAgent.strict_json_analyze chunks prompt oracle).finalMessages
          = IAgent.initMessages chunks prompt ++ [IAgent.retryMsg]
      ∧ (∀ j raw2, oracle 1 = .ok j raw2 →
          (IAgent.strict_json_analyze chunks prompt oracle).result = .ok j)
      ∧ (∀ raw2, oracle 1 = .parseFail raw2 →
          (IAgent.strict_json_analyze chunks prompt oracle).result
            = .error (.invalidOutput INVALID_JSON_MSG))
      ∧ (∀ e, oracle 1 = .transportFail e →
          (IAgent.strict_json_analyze chunks prompt oracle).result
            = .error (.invalidOutput INVALID_JSON_MSG))) := by
  cases h0 : oracle 0 <;> cases h1 : oracle 1 <;>
    simp [Backend.strict_json_analyze, IAgent.strict_json_analyze, h0, h1]

/-- C3 witness: the retry-protocol theorem applied to a concrete oracle
whose first response fails to parse and whose second parses — the final
result is the second attempt's record. -/
theorem C3_retry_protocol_witness :
    (Backend.strict_json_analyze [] "p"
        (fun n => if n = 0 then .parseFail "garbage" else .ok (.obj []) "ok")).result
      = .ok (.obj []) :=
  ((C3_retry_protocol [] "p"
      (fun n => if n = 0 then .parseFail "garbage" else .ok (.obj []) "ok")).2.2.1
    "garbage" rfl).2.2.1 (.obj []) "ok" rfl

/-- Sum of squares of a vector divided by its Euclidean norm, when some
entry is non-zero: exactly 1. -/
theorem sum_sq_normalized (vec : List ℝ) (hx : ∃ x ∈ vec, x ≠ 0) :
    (((vec.map fun x => x / Real.sqrt ((vec.map fun x => x * x).sum)).map
        fun x => x * x).sum) = 1 := by
  set S := (vec.map fun x => x * x).sum with hS
  have hnonneg : ∀ y ∈ vec.map fun x => x * x, 0 ≤ y := by
    intro y hy
    obtain ⟨x, -, rfl⟩ := List.mem_map.mp hy
    exact mul_self_nonneg x
  have hS0 : 0 ≤ S := List.sum_nonneg hnonneg
  obtain ⟨x, hxmem, hxne⟩ := hx
  have hmem : x * x ∈ vec.map fun x => x * x := List.mem_map_of_mem _ hxmem
  have hle : x * x ≤ S := List.single_le_sum hnonneg _ hmem
  have hSpos : 0 < S := lt_of_lt_of_le (mul_self_pos.mpr hxne) hle
  have hnn : Real.sqrt S * Real.sqrt S = S := Real.mul_self_sqrt hS0
  rw [List.map_map]
  have hcong : (vec.map ((fun x => x * x) ∘ fun x => x / Real.sqrt S))
      = vec.map fun x => (x * x) * (1 / S) := by
    apply List.map_congr_left
    intro a _
    show (a / Real.sqrt S) * (a / Real.sqrt S) = (a * a) * (1 / S)
    rw [div_mul_div_comm, hnn]
    ring
  rw [hcong, List.sum_map_mul_right, ← hS]
  field_simp

/-- The sum of squares of the normalized branch's result, phrased on the
whole `if` of the embedding pipeline. -/
theorem normalized_if_sum_sq (vec : List ℝ) (hx : ∃ x ∈ vec, x ≠ 0) :
    (((if Real.sqrt ((vec.map fun x => x * x).sum) > 0
        then vec.map fun x => x / Real.sqrt ((vec.map fun x => x * x).sum)
        else vec).map fun x => x * x).sum) = 1 := by
  have hnonneg : ∀ y ∈ vec.map fun x => x * x, 0 ≤ y := by
    intro y hy
    obtain ⟨x, -, rfl⟩ := List.mem_map.mp hy
    exact mul_self_nonneg x
  obtain ⟨x, hxmem, hxne⟩ := hx
  have hle : x * x ≤ (vec.map fun x => x * x).sum :=
    List.single_le_sum hnonneg _ (List.mem_map_of_mem _ hxmem)
  have hSpos : 0 < (vec.map fun x => x * x).sum :=
    lt_of_lt_of_le (mul_self_pos.mpr hxne) hle
  rw [if_pos (Real.sqrt_pos.mpr hSpos)]
  exact sum_sq_normalized vec ⟨x, hxmem, hxne⟩

/-- A zero raw vector takes the `else` branch of the embedding pipeline and
is returned unmodified. -/
theorem normalize_zero_vec (vec : List ℝ) (hz : ∀ x ∈ vec, x = 0) :
    (if Real.sqrt ((vec.map fun x => x * x).sum) > 0
      then vec.map fun x => x / Real.sqrt ((vec.map fun x => x * x).sum)
      else vec) = vec := by
  have hS : (vec.map fun x => x * x).sum = 0 := by
    apply List.sum_eq_zero
    intro y hy
    obtain ⟨x, hxm, rfl⟩ := List.mem_map.mp hy
    rw [hz x hxm]
    ring
  rw [hS, Real.sqrt_zero]
  simp

/-- C4 (counterexample): the backend offline embedder `_hash_embed` is
called at its default dimension, 384 — its vectors do not have the claimed
dimension 768.  (The oracle stands for `RandomState(seed).rand(dim)`, which
returns exactly `dim` draws.) -/
theorem C4_dim_counterexample :
    (Backend.hash_embed (fun _ => 0) (fun _ dim => List.replicate dim 1) "any text").length
      = 384
  ∧ (384 : Nat) ≠ 768 := by
  refine ⟨?_, by decide⟩
  simp only [Backend.hash_embed, apply_ite (List.length (α := ℝ)),
    List.length_map, List.length_replicate, ite_self]

/-- C4 (amended): the offline embedders are deterministic functions of the
input text (identical text yields the identical vector); the
investment-ai-agent `_hash_embedder` produces vectors of dimension 768
while the backend `_hash_embed` produces dimension 384; whenever the raw
pseudo-random vector is non-zero the returned vector is unit-normalized
(its sum of squares is 1); and a zero raw vector is returned unmodified
rather than divided by zero. -/
theorem C4_embedder_props (shaSeed : String → ℕ) (npRand : ℕ → ℕ → List ℝ)
    (hlen : ∀ s d, (npRand s d).length = d) (text : String) :
    (∀ t1 t2 : String, t1 = t2 →
      Backend.hash_embed shaSeed npRand t1 = Backend.hash_embed shaSeed npRand t2)
  ∧ (Backend.hash_embed shaSeed npRand text).length = 384
  ∧ (∀ texts, ∀ v ∈ IAgent.hash_embedder shaSeed npRand texts, v.length = 768)
  ∧ ((∃ x ∈ (npRand (shaSeed text) 384).map (fun x => x - 0.5), x ≠ 0) →
      ((Backend.hash_embed shaSeed npRand text).map fun x => x * x).sum = 1)
  ∧ ((∀ x ∈ (npRand (shaSeed text) 384).map (fun x => x - 0.5), x = 0) →
      Backend.hash_embed shaSeed npRand text
        = (npRand (shaSeed text) 384).map fun x => x - 0.5) := by
  refine ⟨?_, ?_, ?_, ?_, ?_⟩
  · intro t1 t2 h
    rw [h]
  · simp [Backend.hash_embed, apply_ite (List.length (α := ℝ)), hlen]
  · intro texts v hv
    obtain ⟨t, -, rfl⟩ := List.mem_map.mp hv
    simp [apply_ite (List.length (α := ℝ)), hlen]
  · intro hx
    exact normalized_if_sum_sq ((npRand (shaSeed text) 384).map fun x => x - 0.5) hx
  · intro hz
    exact normalize_zero_vec ((npRand (shaSeed text) 384).map fun x => x - 0.5) hz

/-- C4 witness: the embedder theorem applied to concrete oracles (hash 0,
all draws 1), the length law and the non-zero raw vector discharged
concretely: the produced vector has dimension 384 and unit sum of squares. -/
theorem C4_embedder_witness :
    (Backend.hash_embed (fun _ => 0) (fun _ d => List.replicate d 1) "x").length = 384
  ∧ ((Backend.hash_embed (fun _ => 0) (fun _ d => List.replicate d 1) "x").map
      fun x => x * x).sum = 1 :=
  ⟨(C4_embedder_props (fun _ => 0) (fun _ d => List.replicate d 1)
      (fun _ d => List.length_replicate d 1) "x").2.1,
   (C4_embedder_props (fun _ => 0) (fun _ d => List.replicate d 1)
      (fun _ d => List.length_replicate d 1) "x").2.2.2.1
    ⟨(1 : ℝ) - 0.5,
      List.mem_map_of_mem _ (List.mem_replicate.mpr ⟨by norm_num, rfl⟩),
      by norm_num⟩⟩

/-- Looking up the key just written into the cache returns the written value. -/
theorem cacheLookup_set_self (c : Cache) (d : String) (r : Json) :
    cacheLookup (cacheSet c d r) d = some r := by
  induction c with
  | nil => simp [cacheSet, cacheLookup]
  | cons hd tl ih =>
    obtain ⟨k, v⟩ := hd
    by_cases h : k = d <;> simp [cacheSet, cacheLookup, h, ih]

/-- Writing one key leaves every other key's lookup unchanged. -/
theorem cacheLookup_set_ne (c : Cache) (d : String) (r : Json) (d' : String)
    (h : d' ≠ d) : cacheLookup (cacheSet c d r) d' = cacheLookup c d' := by
  induction c with
  | nil => simp [cacheSet, cacheLookup, Ne.symm h]
  | cons hd tl ih =>
    obtain ⟨k, v⟩ := hd
    by_cases hk : k = d
    · subst hk
      simp [cacheSet, cacheLookup, Ne.symm h]
    · simp [cacheSet, cacheLookup, hk, ih]

/-- The cache returned by `create_analysis` is the input cache on every
failure path, and the input cache with the result written on success. -/
theorem create_analysis_cache_eq (registry : List String) (store : String → Collection)
    (k : Nat) (ef : List String → List (List ℝ))
    (llm : List ChunkDict → Except GenErr Json) (cache : Cache) (doc : String) :
    (create_analysis registry store k ef llm cache doc).2
      = (match (create_analysis registry store k ef llm cache doc).1 with
         | .error _ => cache
         | .ok r => cacheSet cache doc r) := by
  unfold create_analysis
  cases hreg : registry.contains doc
  · simp [hreg]
  · simp only [hreg, if_true]
    cases hempty : (get_top_k (store doc) "" k ef).isEmpty
    · simp only [hempty, Bool.false_eq_true, if_false]
      cases hllm : llm (get_top_k (store doc) "" k ef)
      · simp [hllm]
      · simp only [hllm]
        cases happ : appendShariaFlags _ _
        · simp [happ]
        · simp [happ]
    · simp [hempty]

/-- C8: a failing `create_analysis` invocation (missing document, zero
chunks retrieved, generation failure, or the defensive red-flag append
error) leaves the Analysis Cache exactly as it was; an entry is written
only when the invocation returns a result, the written entry equals the
returned result, and no other document id's slot is touched. -/
theorem C8_cache_untouched_on_failure (registry : List String)
    (store : String → Collection) (k : Nat) (ef : List String → List (List ℝ))
    (llm : List ChunkDict → Except GenErr Json) (cache : Cache) (doc : String) :
    ((create_analysis registry store k ef llm cache doc).2
        = match (create_analysis registry store k ef llm cache doc).1 with
          | .error _ => cache
          | .ok r => cacheSet cache doc r)
  ∧ (∀ e, (create_analysis registry store k ef llm cache doc).1 = .error e →
      (create_analysis registry store k ef llm cache doc).2 = cache)
  ∧ (∀ r, (create_analysis registry store k ef llm cache doc).1 = .ok r →
      cacheLookup (create_analysis registry store k ef llm cache doc).2 doc = some r
      ∧ ∀ d, d ≠ doc →
          cacheLookup (create_analysis registry store k ef llm cache doc).2 d
            = cacheLookup cache d) := by
  have h := create_analysis_cache_eq registry store k ef llm cache doc
  refine ⟨h, ?_, ?_⟩
  · intro e he
    rw [h, he]
  · intro r hr
    rw [h, hr]
    exact ⟨cacheLookup_set_self cache doc r,
           fun d hd => cacheLookup_set_ne cache doc r d hd⟩

/-- C8 witness: the theorem applied to a run that fails at the registry
check — the cache keeps its prior, unrelated entry. -/
theorem C8_cache_untouched_witness :
    (create_analysis [] store0 1 (fun _ => []) (fun _ => .ok A0) [("x", A0)] "doc1").2
      = [("x", A0)] :=
  (C8_cache_untouched_on_failure [] store0 1 (fun _ => []) (fun _ => .ok A0)
      [("x", A0)] "doc1").2.1 ⟨404, "Document not found."⟩ rfl

/-- C2: `create_analysis` builds the screening inputs with
`chunk.get('text', '')`, but `get_top_k` returns chunks keyed `"document"`
— so the Compliance Screen receives one empty string per retrieved chunk
instead of the raw retrieved texts.  Concretely: the single retrieved chunk
reads "Our casino gambling business", yet the attached finding is `Pass`
with the canned reason, while screening the actual raw text yields `Review`
with the gambling reason. -/
theorem C2_screen_gets_empty_texts :
    (create_analysis ["doc1"] store0 12 (fun _ => []) (fun _ => .ok A0) [] "doc1").1
      = .ok (dictSet A0 "sharia_findings" (findingJson ⟨.Pass, [R_NONE]⟩))
  ∧ (get_top_k (store0 "doc1") "" 12 (fun _ => [])).map (fun chunk => chunk.text.getD "")
      = [""]
  ∧ (get_top_k (store0 "doc1") "" 12 (fun _ => [])).map (fun chunk => chunk.document.getD "")
      = ["Our casino gambling business"]
  ∧ screen_sharia ["Our casino gambling business"] A0 = ⟨.Review, [R_GAMBLING]⟩ :=
  ⟨rfl, rfl, rfl, by decide⟩

/-- Overwriting one key of an object leaves the lookup of every other key
unchanged. -/
theorem lookup_setField_ne (fs : List (String × Json)) (key : String) (v : Json)
    (kf : String) (h : kf ≠ key) :
    lookupField (setField fs key v) kf = lookupField fs kf := by
  induction fs with
  | nil => simp [setField, lookupField, Ne.symm h]
  | cons hd tl ih =>
    obtain ⟨k', v'⟩ := hd
    by_cases hk : k' = key
    · subst hk
      simp [setField, lookupField, Ne.symm h]
    · simp [setField, lookupField, hk, ih]

/-- C9: in demo mode, `strict_json_analyze` invoked for a document id other
than "doc123" returns an incomplete record — the investment-ai-agent
variant returns the empty dict, missing every required top-level field,
while the backend variant returns a shallow copy of its canned response
with only `company_name` replaced. -/
theorem C9_demo_incomplete_records (d : Option String) (h : d ≠ some "doc123") :
    IAgent.strict_json_analyze_demo d = .obj []
  ∧ (∀ kf ∈ requiredFields, (IAgent.strict_json_analyze_demo d).getField kf = none)
  ∧ Backend.strict_json_analyze_demo d
      = dictSet Backend.CANNED_ANALYSIS_RESPONSE "company_name" (.str "Generic Demo Corp")
  ∧ (Backend.strict_json_analyze_demo d).getField "company_name"
      = some (.str "Generic Demo Corp")
  ∧ (∀ kf, kf ≠ "company_name" →
      (Backend.strict_json_analyze_demo d).getField kf
        = Backend.CANNED_ANALYSIS_RESPONSE.getField kf) := by
  have hI : IAgent.strict_json_analyze_demo d = .obj [] := by
    simp [IAgent.strict_json_analyze_demo, h]
  have hB : Backend.strict_json_analyze_demo d
      = dictSet Backend.CANNED_ANALYSIS_RESPONSE "company_name"
          (.str "Generic Demo Corp") := by
    simp [Backend.strict_json_analyze_demo, h]
  refine ⟨hI, ?_, hB, ?_, ?_⟩
  · intro kf _
    rw [hI]
    rfl
  · rw [hB]
    rfl
  · intro kf hkf
    rw [hB]
    show lookupField (setField _ "company_name" (.str "Generic Demo Corp")) kf
      = Json.getField Backend.CANNED_ANALYSIS_RESPONSE kf
    rw [lookup_setField_ne _ "company_name" _ kf hkf]
    rfl

/-- C9 witness: the theorem applied at the document id `none`
(no demo id supplied). -/
theorem C9_demo_witness :
    IAgent.strict_json_analyze_demo none = .obj []
  ∧ (Backend.strict_json_analyze_demo none).getField "company_name"
      = some (.str "Generic Demo Corp") :=
  ⟨(C9_demo_incomplete_records none (by decide)).1,
   (C9_demo_incomplete_records none (by decide)).2.2.2.1⟩

/-- C10: both consumers of the Analysis Cache test the lookup result for
truthiness, not key presence: a slot holding a falsy value (such as the
empty record) is reported not-found exactly like an absent slot, and a
stored entry is observable only when it is truthy. -/
theorem C10_truthiness_not_presence (cache : Cache) (doc : String) :
    (∀ v, cacheLookup cache doc = some v → v.truthy = false →
      get_analysis cache doc
          = .error ⟨404, "Analysis not found. Please run the analysis first via a POST request."⟩
      ∧ generate_memo_gate cache doc
          = .error ⟨400, "Analysis for this document_id not found. Please run analysis first."⟩)
  ∧ (cacheLookup cache doc = none →
      get_analysis cache doc
          = .error ⟨404, "Analysis not found. Please run the analysis first via a POST request."⟩
      ∧ generate_memo_gate cache doc
          = .error ⟨400, "Analysis for this document_id not found. Please run analysis first."⟩)
  ∧ (∀ v, cacheLookup cache doc = some v → v.truthy = true →
      get_analysis cache doc = .ok v ∧ generate_memo_gate cache doc = .ok v) := by
  refine ⟨?_, ?_, ?_⟩
  · intro v hv htr
    constructor <;> simp [get_analysis, generate_memo_gate, truthyOpt, hv, htr]
  · intro hv
    constructor <;> simp [get_analysis, generate_memo_gate, truthyOpt, hv]
  · intro v hv htr
    constructor <;> simp [get_analysis, generate_memo_gate, truthyOpt, hv, htr]

/-- C10 witness: the theorem applied to a cache whose slot for "doc1" holds
the empty record — the cached-analysis endpoint reports not-found. -/
theorem C10_truthiness_witness :
    cacheLookup [("doc1", Json.obj [])] "doc1" = some (Json.obj [])
  ∧ get_analysis [("doc1", Json.obj [])] "doc1"
      = .error ⟨404, "Analysis not found. Please run the analysis first via a POST request."⟩ :=
  ⟨rfl,
   ((C10_truthiness_not_presence [("doc1", Json.obj [])] "doc1").1
      (Json.obj []) rfl rfl).1⟩

end AIHack
